import Mathlib

/-! Verification of the JetStream error-classification module (nats/js/errors.py).
The Python classes become an explicit class enumeration with their base-class
lists; the classification entry points become functions returning the class that
would be raised together with the field values it would carry; the renderers
become functions to strings. -/

/-- Python truthiness of an optional string: None and the empty string are falsy. -/
def pyTruthy : Option String → Bool
  | none => false
  | some s => s != ""

/-- How a Python f-string interpolates an Optional int field: None prints as "None". -/
def pyShowOptInt : Option Int → String
  | none => "None"
  | some n => toString n

/-- How a Python f-string interpolates an Optional str field: None prints as "None". -/
def pyShowOptStr : Option String → String
  | none => "None"
  | some s => s

/-- The exception classes of nats/js/errors.py, plus the two external bases from
nats.errors that the module subclasses (NatsError is nats.errors.Error,
NatsTimeoutError is nats.errors.TimeoutError). -/
inductive ErrClass where
  | NatsError
  | NatsTimeoutError
  | Error
  | APIError
  | ServiceUnavailableError
  | ServerError
  | NotFoundError
  | BadRequestError
  | NoStreamResponseError
  | TooManyStalledMsgsError
  | FetchTimeoutError
  | ConsumerSequenceMismatchError
  | BucketNotFoundError
  | BadBucketError
  | KeyValueError
  | KeyDeletedError
  | KeyNotFoundError
  | KeyWrongLastSequenceError
  | NoKeysError
  | KeyHistoryTooLargeError
  | InvalidBucketNameError
  | InvalidObjectNameError
  | BadObjectMetaError
  | LinkIsABucketError
  | DigestMismatchError
  | ObjectNotFoundError
  | ObjectDeletedError
  | ObjectAlreadyExists
  deriving DecidableEq

/-- The direct base classes of each class, exactly as written in the source:
for example KeyDeletedError and KeyNotFoundError derive from both KeyValueError
and NotFoundError, KeyWrongLastSequenceError from KeyValueError and
BadRequestError, FetchTimeoutError from nats.errors.TimeoutError. -/
def bases : ErrClass → List ErrClass
  | .NatsError => []
  | .NatsTimeoutError => [.NatsError]
  | .Error => [.NatsError]
  | .APIError => [.Error]
  | .ServiceUnavailableError => [.APIError]
  | .ServerError => [.APIError]
  | .NotFoundError => [.APIError]
  | .BadRequestError => [.APIError]
  | .NoStreamResponseError => [.Error]
  | .TooManyStalledMsgsError => [.Error]
  | .FetchTimeoutError => [.NatsTimeoutError]
  | .ConsumerSequenceMismatchError => [.Error]
  | .BucketNotFoundError => [.NotFoundError]
  | .BadBucketError => [.APIError]
  | .KeyValueError => [.APIError]
  | .KeyDeletedError => [.KeyValueError, .NotFoundError]
  | .KeyNotFoundError => [.KeyValueError, .NotFoundError]
  | .KeyWrongLastSequenceError => [.KeyValueError, .BadRequestError]
  | .NoKeysError => [.KeyValueError]
  | .KeyHistoryTooLargeError => [.KeyValueError]
  | .InvalidBucketNameError => [.Error]
  | .InvalidObjectNameError => [.Error]
  | .BadObjectMetaError => [.Error]
  | .LinkIsABucketError => [.Error]
  | .DigestMismatchError => [.Error]
  | .ObjectNotFoundError => [.NotFoundError]
  | .ObjectDeletedError => [.NotFoundError]
  | .ObjectAlreadyExists => [.Error]

/-- Reflexive-transitive closure of the base-class relation, with fuel bounding
the recursion depth (the hierarchy is at most a handful of levels deep, so fuel
28, the number of classes, is ample). -/
def isSubclassFuel : Nat → ErrClass → ErrClass → Bool
  | 0, _, _ => false
  | fuel + 1, a, b => a == b || (bases a).any fun p => isSubclassFuel fuel p b

/-- The Python isinstance check at class level: an instance of class a is an
instance of class b exactly when a is b or inherits from it. -/
def isinstance (a b : ErrClass) : Bool := isSubclassFuel 28 a b

/-- The five data fields an APIError value carries (all Optional, default None). -/
structure APIFields where
  code : Option Int
  err_code : Option Int
  description : Option String
  stream : Option String
  seq : Option Int
  deriving DecidableEq

/-- A structured server error object as passed to APIError.from_error: the code
key is required (an int), while err_code, description, stream and seq may each
be present or absent; an absent key leaves the corresponding constructor
argument at its default None. -/
structure ErrObject where
  code : Int
  err_code : Option Int
  description : Option String
  stream : Option String
  seq : Option Int

/-- APIError.from_error: dispatch on the code field of the structured error
object (503, 500, 404, 400, otherwise generic) and construct the chosen class
with every supplied field forwarded unchanged. Returned as the pair of the
raised class and the field values it carries. -/
def APIError.from_error (err : ErrObject) : ErrClass × APIFields :=
  let fields : APIFields :=
    { code := some err.code, err_code := err.err_code, description := err.description,
      stream := err.stream, seq := err.seq }
  if err.code = 503 then (.ServiceUnavailableError, fields)
  else if err.code = 500 then (.ServerError, fields)
  else if err.code = 404 then (.NotFoundError, fields)
  else if err.code = 400 then (.BadRequestError, fields)
  else (.APIError, fields)

/-- Modelled from the spec: the StatusKindRegistry, the code-to-kind mapping
table (503 to ServiceUnavailable, 500 to Server, 404 to NotFound, 400 to
BadRequest, else the generic kind). -/
def statusKindRegistry (code : Int) : ErrClass :=
  if code = 503 then .ServiceUnavailableError
  else if code = 500 then .ServerError
  else if code = 404 then .NotFoundError
  else if code = 400 then .BadRequestError
  else .APIError

/-- Claim C1: APIError.from_error raises ServiceUnavailableError on code 503,
ServerError on 500, NotFoundError on 404, BadRequestError on 400 and the
generic APIError on every other code, always carrying the supplied fields
verbatim with omitted fields unset: the classification agrees with the
registry of the spec, the registry sends the four named codes to the four
specialized classes, and every other code to the generic class. -/
theorem from_error_classifies (err : ErrObject) (c : Int) :
    APIError.from_error err =
      (statusKindRegistry err.code,
        { code := some err.code, err_code := err.err_code, description := err.description,
          stream := err.stream, seq := err.seq }) ∧
    statusKindRegistry 503 = ErrClass.ServiceUnavailableError ∧
    statusKindRegistry 500 = ErrClass.ServerError ∧
    statusKindRegistry 404 = ErrClass.NotFoundError ∧
    statusKindRegistry 400 = ErrClass.BadRequestError ∧
    (c = 503 ∨ c = 500 ∨ c = 404 ∨ c = 400 ∨ statusKindRegistry c = ErrClass.APIError) := by
  refine ⟨?_, by decide, by decide, by decide, by decide, ?_⟩
  · unfold APIError.from_error statusKindRegistry
    split_ifs <;> rfl
  · by_cases h1 : c = 503
    · exact Or.inl h1
    by_cases h2 : c = 500
    · exact Or.inr (Or.inl h2)
    by_cases h3 : c = 404
    · exact Or.inr (Or.inr (Or.inl h3))
    by_cases h4 : c = 400
    · exact Or.inr (Or.inr (Or.inr (Or.inl h4)))
    refine Or.inr (Or.inr (Or.inr (Or.inr ?_)))
    unfold statusKindRegistry
    rw [if_neg h1, if_neg h2, if_neg h3, if_neg h4]

/-- Response headers as a finite association of header names to string values
(a Python dict); lookup returns the value of the first matching name. -/
def Headers := List (String × String)

/-- Dict lookup that may miss: models h[k] which raises KeyError when absent. -/
def Headers.get? (h : Headers) (k : String) : Option String :=
  (List.find? (fun p => p.1 == k) h).map Prod.snd

/-- Modelled from the spec: the header name of the numeric status entry
(api.Header.STATUS, from the api module that is outside the given source). -/
def Header.STATUS : String := "Status"

/-- Modelled from the spec: the header name of the optional description entry
(api.Header.DESCRIPTION, from the api module that is outside the given source). -/
def Header.DESCRIPTION : String := "Description"

/-- Modelled from the spec: the service-unavailable status code as the string
header value it is compared against (api.StatusCode.SERVICE_UNAVAILABLE). -/
def StatusCode.SERVICE_UNAVAILABLE : String := "503"

/-- Whether a character is a decimal digit (code points 48 to 57). -/
def isDigitChar (c : Char) : Bool := 48 ≤ c.toNat && c.toNat ≤ 57

/-- The decimal value of a nonempty all-digit character list. -/
def digitsVal? (cs : List Char) : Option Nat :=
  if cs = [] then none
  else if cs.all isDigitChar then
    some (cs.foldl (fun a c => a * 10 + (c.toNat - 48)) 0)
  else none

/-- Python int() applied to a string, on the plain decimal forms that reach it
here: an optional sign followed by decimal digits; anything else is a
ValueError, modelled as none (Python additionally strips surrounding
whitespace and allows underscore separators, which status header values never
carry). -/
def pyInt? (s : String) : Option Int :=
  match s.data with
  | '-' :: cs => (digitsVal? cs).map fun n => -(n : Int)
  | '+' :: cs => (digitsVal? cs).map fun n => (n : Int)
  | cs => (digitsVal? cs).map fun n => (n : Int)

/-- The outcome of APIError.from_msg: either one of the module's error classes
is raised carrying the given field values, or a Python builtin exception
escapes first (KeyError from a missing dict key, ValueError from int() on a
non-numeric status). -/
inductive FromMsg where
  | raised (cls : ErrClass) (fields : APIFields)
  | keyError (key : String)
  | valueError (val : String)
  deriving DecidableEq

/-- APIError.from_msg: with no headers raise a bare APIError; with headers read
the status entry (dict indexing), compare it to the service-unavailable code
and raise a bare ServiceUnavailableError on equality; otherwise read the
description entry (dict indexing again) and raise APIError with the
int-parsed status as code and that entry as description. -/
def APIError.from_msg (header : Option Headers) : FromMsg :=
  match header with
  | none => .raised .APIError ⟨none, none, none, none, none⟩
  | some h =>
    match h.get? Header.STATUS with
    | none => .keyError Header.STATUS
    | some code =>
      if code = StatusCode.SERVICE_UNAVAILABLE then
        .raised .ServiceUnavailableError ⟨none, none, none, none, none⟩
      else
        match h.get? Header.DESCRIPTION with
        | none => .keyError Header.DESCRIPTION
        | some desc =>
          match pyInt? code with
          | none => .valueError code
          | some n => .raised .APIError ⟨some n, none, some desc, none, none⟩

/-- Claim C2, counterexample: on headers with a status entry of 404 and no
description entry, from_msg does not deliver a generic APIError with the
description unset, as the claim states; the dict lookup of the description
header fails first (a KeyError escapes). -/
theorem from_msg_missing_description_cex :
    APIError.from_msg (some [(Header.STATUS, "404")]) = FromMsg.keyError Header.DESCRIPTION ∧
    APIError.from_msg (some [(Header.STATUS, "404")]) ≠
      FromMsg.raised ErrClass.APIError ⟨some 404, none, none, none, none⟩ := by
  constructor <;> decide

/-- Claim C2 as amended: for every header mapping whose status entry is present
and differs from the service-unavailable code, and which also carries a
description entry, from_msg delivers a generic APIError whose code is the
integer-parsed status value and whose description is the description entry;
when the description entry is absent the lookup itself fails instead of
delivering an error value. -/
theorem from_msg_with_description (h : Headers) (s d : String) (n : Int)
    (hs : Headers.get? h Header.STATUS = some s)
    (hne : s ≠ StatusCode.SERVICE_UNAVAILABLE)
    (hd : Headers.get? h Header.DESCRIPTION = some d)
    (hn : pyInt? s = some n) :
    APIError.from_msg (some h) =
      FromMsg.raised ErrClass.APIError ⟨some n, none, some d, none, none⟩ := by
  simp only [APIError.from_msg, hs, hd, hn, hne, if_false, ite_false]

/-- Witness for the amended claim C2 at concrete headers. -/
theorem from_msg_with_description_witness :
    APIError.from_msg (some [(Header.STATUS, "404"), (Header.DESCRIPTION, "not found")]) =
      FromMsg.raised ErrClass.APIError ⟨some 404, none, some "not found", none, none⟩ :=
  from_msg_with_description _ "404" "not found" 404 (by decide) (by decide) (by decide)
    (by decide)

/-- Claim C3: on a message carrying no headers at all, from_msg delivers a
generic APIError with code, err_code, description, stream and seq all unset. -/
theorem from_msg_no_headers :
    APIError.from_msg none = FromMsg.raised ErrClass.APIError ⟨none, none, none, none, none⟩ :=
  rfl

/-- Claim C4: on every header mapping whose status entry equals the
service-unavailable code, from_msg delivers a ServiceUnavailableError with no
fields populated, whatever else (a description entry included) the mapping
holds. -/
theorem from_msg_service_unavailable (h : Headers)
    (hs : Headers.get? h Header.STATUS = some StatusCode.SERVICE_UNAVAILABLE) :
    APIError.from_msg (some h) =
      FromMsg.raised ErrClass.ServiceUnavailableError ⟨none, none, none, none, none⟩ := by
  simp [APIError.from_msg, hs]

/-- Witness for claim C4 at concrete headers that do carry a description. -/
theorem from_msg_service_unavailable_witness :
    APIError.from_msg
        (some [(Header.STATUS, StatusCode.SERVICE_UNAVAILABLE),
               (Header.DESCRIPTION, "try again later")]) =
      FromMsg.raised ErrClass.ServiceUnavailableError ⟨none, none, none, none, none⟩ :=
  from_msg_service_unavailable _ (by decide)

/-- The class name as Python's type(self).__name__ prints it (the two
external bases print under their own names Error and TimeoutError). -/
def ErrClass.name : ErrClass → String
  | .NatsError => "Error"
  | .NatsTimeoutError => "TimeoutError"
  | .Error => "Error"
  | .APIError => "APIError"
  | .ServiceUnavailableError => "ServiceUnavailableError"
  | .ServerError => "ServerError"
  | .NotFoundError => "NotFoundError"
  | .BadRequestError => "BadRequestError"
  | .NoStreamResponseError => "NoStreamResponseError"
  | .TooManyStalledMsgsError => "TooManyStalledMsgsError"
  | .FetchTimeoutError => "FetchTimeoutError"
  | .ConsumerSequenceMismatchError => "ConsumerSequenceMismatchError"
  | .BucketNotFoundError => "BucketNotFoundError"
  | .BadBucketError => "BadBucketError"
  | .KeyValueError => "KeyValueError"
  | .KeyDeletedError => "KeyDeletedError"
  | .KeyNotFoundError => "KeyNotFoundError"
  | .KeyWrongLastSequenceError => "KeyWrongLastSequenceError"
  | .NoKeysError => "NoKeysError"
  | .KeyHistoryTooLargeError => "KeyHistoryTooLargeError"
  | .InvalidBucketNameError => "InvalidBucketNameError"
  | .InvalidObjectNameError => "InvalidObjectNameError"
  | .BadObjectMetaError => "BadObjectMetaError"
  | .LinkIsABucketError => "LinkIsABucketError"
  | .DigestMismatchError => "DigestMismatchError"
  | .ObjectNotFoundError => "ObjectNotFoundError"
  | .ObjectDeletedError => "ObjectDeletedError"
  | .ObjectAlreadyExists => "ObjectAlreadyExists"

/-- APIError.__str__: a fixed-shape f-string over the class name and the code,
err_code and description fields (stream and seq do not appear in it). -/
def APIError.str (cls : ErrClass) (f : APIFields) : String :=
  "nats: " ++ cls.name ++ ": code=" ++ pyShowOptInt f.code ++ " err_code=" ++
    pyShowOptInt f.err_code ++ " description='" ++ pyShowOptStr f.description ++ "'"

/-- Modelled from the spec: the fixed absent-marker an unset field renders as. -/
def specAbsentMarker : String := "None"

/-- Modelled from the spec: an int field slot renders its value, or the
absent-marker when the field is unset. -/
def specSlotInt : Option Int → String
  | none => specAbsentMarker
  | some n => toString n

/-- Modelled from the spec: a text field slot renders its value, or the
absent-marker when the field is unset. -/
def specSlotStr : Option String → String
  | none => specAbsentMarker
  | some s => s

/-- Modelled from the spec: the rendering shape it states for the APIError
family, always the same fixed shape with each unset field rendered as the
absent-marker in its slot rather than omitted. -/
def specRenderAPI (kindName : String) (f : APIFields) : String :=
  "nats: " ++ kindName ++ ": code=" ++ specSlotInt f.code ++ " err_code=" ++
    specSlotInt f.err_code ++ " description='" ++ specSlotStr f.description ++ "'"

/-- Claim C5: every value of the five-member APIError family renders in the
fixed shape the spec states, unset fields appearing as the absent-marker in
their slots; in particular the all-unset generic value and a fully populated
ServerError render as the two concrete strings shown. -/
theorem api_error_render_fixed_shape (f : APIFields) :
    (APIError.str ErrClass.APIError f = specRenderAPI "APIError" f ∧
     APIError.str ErrClass.ServiceUnavailableError f = specRenderAPI "ServiceUnavailableError" f ∧
     APIError.str ErrClass.ServerError f = specRenderAPI "ServerError" f ∧
     APIError.str ErrClass.NotFoundError f = specRenderAPI "NotFoundError" f ∧
     APIError.str ErrClass.BadRequestError f = specRenderAPI "BadRequestError" f) ∧
    APIError.str ErrClass.APIError ⟨none, none, none, none, none⟩ =
      "nats: APIError: code=None err_code=None description='None'" ∧
    APIError.str ErrClass.ServerError
        ⟨some 500, some 10014, some "consumer not found", none, none⟩ =
      "nats: ServerError: code=500 err_code=10014 description='consumer not found'" := by
  refine ⟨?_, by decide, by decide⟩
  obtain ⟨c, ec, d, st, sq⟩ := f
  cases c <;> cases ec <;> cases d <;> exact ⟨rfl, rfl, rfl, rfl, rfl⟩

/-- The three fields of ConsumerSequenceMismatchError (constructor defaults
are None). -/
structure ConsumerSequenceMismatchFields where
  stream_resume_sequence : Option Int
  consumer_sequence : Option Int
  last_consumer_sequence : Option Int

/-- ConsumerSequenceMismatchError.__str__: first computes the gap as
last_consumer_sequence minus consumer_sequence (a Python TypeError when
either is None, modelled as none), then formats the fixed template; the
resume field is only interpolated, so None there would print as "None". -/
def ConsumerSequenceMismatch.str (e : ConsumerSequenceMismatchFields) : Option String :=
  match e.last_consumer_sequence, e.consumer_sequence with
  | some l, some c =>
    some ("nats: sequence mismatch for consumer at sequence " ++ toString c ++ " (" ++
      toString (l - c) ++
      " sequences behind), should restart consumer from stream sequence " ++
      pyShowOptInt e.stream_resume_sequence)
  | _, _ => none

/-- Claim C6: with all three sequence numbers present, rendering is exactly
the template with the gap computed as last minus current; at resume 10,
current 5, last 8 the gap renders as 3, and at last 3, below current 5, as
the unclamped negative value -2. -/
theorem consumer_sequence_mismatch_render (r c l : Int) :
    ConsumerSequenceMismatch.str ⟨some r, some c, some l⟩ =
      some ("nats: sequence mismatch for consumer at sequence " ++ toString c ++ " (" ++
        toString (l - c) ++
        " sequences behind), should restart consumer from stream sequence " ++ toString r) ∧
    ConsumerSequenceMismatch.str ⟨some 10, some 5, some 8⟩ =
      some ("nats: sequence mismatch for consumer at sequence 5 (3 sequences behind), " ++
        "should restart consumer from stream sequence 10") ∧
    ConsumerSequenceMismatch.str ⟨some 10, some 5, some 3⟩ =
      some ("nats: sequence mismatch for consumer at sequence 5 (-2 sequences behind), " ++
        "should restart consumer from stream sequence 10") := by
  refine ⟨rfl, by decide, by decide⟩

/-- Claim C7: KeyDeletedError and KeyNotFoundError each satisfy both the
KeyValueError and the NotFoundError capability checks, and the generic
not-found check succeeds for KeyNotFoundError, KeyDeletedError,
BucketNotFoundError, ObjectNotFoundError, ObjectDeletedError and plain
NotFoundError alike. -/
theorem capability_checks :
    isinstance ErrClass.KeyDeletedError ErrClass.KeyValueError = true ∧
    isinstance ErrClass.KeyDeletedError ErrClass.NotFoundError = true ∧
    isinstance ErrClass.KeyNotFoundError ErrClass.KeyValueError = true ∧
    isinstance ErrClass.KeyNotFoundError ErrClass.NotFoundError = true ∧
    isinstance ErrClass.BucketNotFoundError ErrClass.NotFoundError = true ∧
    isinstance ErrClass.ObjectNotFoundError ErrClass.NotFoundError = true ∧
    isinstance ErrClass.ObjectDeletedError ErrClass.NotFoundError = true ∧
    isinstance ErrClass.NotFoundError ErrClass.NotFoundError = true := by
  decide

/-- Error.__str__ from the source: desc starts empty and is replaced only when
the description field is truthy; then namespace, class name and desc are
joined. -/
def Error.str (clsName : String) (description : Option String) : String :=
  let desc := if pyTruthy description then description.getD "" else ""
  "nats: JetStream." ++ clsName ++ " " ++ desc

/-- KeyNotFoundError.__str__: the fixed text plus a colon-message suffix only
when the message field is truthy (the entry and op fields play no part in
rendering). -/
def KeyNotFoundError.str (message : Option String) : String :=
  let s := "nats: key not found"
  if pyTruthy message then s ++ ": " ++ message.getD "" else s

/-- KeyWrongLastSequenceError.__str__: the namespace prefix followed by the
interpolated description field. -/
def KeyWrongLastSequenceError.str (description : Option String) : String :=
  "nats: " ++ pyShowOptStr description

/-- Claim C8, counterexample: a KeyNotFoundError constructed with the supplied
message "" renders the bare fixed text, not the fixed text followed by the
colon separator and the empty message, because the renderer tests the message
for truthiness and the empty string is falsy. -/
theorem key_not_found_empty_message_cex :
    KeyNotFoundError.str (some "") = "nats: key not found" ∧
    KeyNotFoundError.str (some "") ≠ "nats: key not found: " := by
  constructor <;> decide

/-- Claim C8 as amended: a KeyNotFoundError constructed with a supplied
nonempty message m renders exactly "nats: key not found: " followed by m, in
particular message "bucket closed" renders "nats: key not found: bucket
closed"; constructed with no message it renders exactly "nats: key not
found". -/
theorem key_not_found_render (m : String) (hm : m ≠ "") :
    KeyNotFoundError.str (some m) = "nats: key not found: " ++ m ∧
    KeyNotFoundError.str (some "bucket closed") = "nats: key not found: bucket closed" ∧
    KeyNotFoundError.str none = "nats: key not found" := by
  refine ⟨?_, by decide, by decide⟩
  simp [KeyNotFoundError.str, pyTruthy, hm]

/-- Witness for the amended claim C8 at the concrete message of the claim. -/
theorem key_not_found_render_witness :
    KeyNotFoundError.str (some "bucket closed") = "nats: key not found: bucket closed" :=
  (key_not_found_render "bucket closed" (by decide)).2.1

/-- Claim C9, counterexample: constructed with the supplied description
"wrong last sequence: 42", rendering returns "nats: wrong last sequence: 42",
not the supplied description alone. -/
theorem key_wrong_last_sequence_cex :
    KeyWrongLastSequenceError.str (some "wrong last sequence: 42") =
      "nats: wrong last sequence: 42" ∧
    KeyWrongLastSequenceError.str (some "wrong last sequence: 42") ≠
      "wrong last sequence: 42" := by
  constructor <;> decide

/-- Claim C9 as amended: for every supplied description d, rendering returns
the namespace prefix "nats: " followed by d verbatim (the server-supplied
human text, with no canned message of its own). -/
theorem key_wrong_last_sequence_render (d : String) :
    KeyWrongLastSequenceError.str (some d) = "nats: " ++ d := rfl

/-- Claim C10: rendering treats an empty text field as an absent one: for
every class name the base renderer yields the identical string for an empty
description as for none, and a KeyNotFoundError with an empty message renders
the bare fixed text, identical to one with no message. -/
theorem empty_string_renders_as_absent (clsName : String) :
    Error.str clsName (some "") = Error.str clsName none ∧
    KeyNotFoundError.str (some "") = KeyNotFoundError.str none ∧
    KeyNotFoundError.str (some "") = "nats: key not found" := by
  refine ⟨rfl, by decide, by decide⟩
